import Mathlib

set_option maxHeartbeats 1600000
set_option maxRecDepth 4000

/-!
Shallow embedding of `data_integration_pipeline.py`, a single-file pandas
pipeline that loads three CSV tables (patients, encounters, observations),
cleans them, joins them with two sequential left merges on `PATIENT`,
projects a fixed 22-column view, and writes it to a CSV file and an
optional SQLite table.

Tables are embedded as Lean lists of typed rows; pandas cells that may be
`NaN` are `Option` values.  `pd.to_datetime` with its default
`errors` policy (raise) is embedded as an `Except`-valued column
conversion; `pd.to_numeric(errors=coerce)` as a total column map into
`Option` of rationals.  Machine floats of pandas are modelled as `ℚ`.
-/

/-- Calendar date as produced by the date-standardization step
(`pd.to_datetime` on lines 69, 70, 84 of the source). -/
structure PDate where
  year : Nat
  month : Nat
  day : Nat
deriving DecidableEq, Repr

/-- Split a character list on a separator, the semantics of
`String.splitOn` for a one-character separator. -/
def splitOnChar (sep : Char) : List Char → List (List Char)
  | [] => [[]]
  | c :: t =>
    if c = sep then [] :: splitOnChar sep t
    else match splitOnChar sep t with
      | [] => [[c]]
      | h :: t2 => (c :: h) :: t2

/-- All characters are decimal digits. -/
def allDigits (cs : List Char) : Bool :=
  cs.all Char.isDigit

/-- Value of a digit string read in base 10. -/
def digitsVal (cs : List Char) : Nat :=
  cs.foldl (fun a c => a * 10 + (c.toNat - 48)) 0

/-- Read a nonempty all-digit character list as a natural number. -/
def digitsToNat (cs : List Char) : Option Nat :=
  if cs.length != 0 && allDigits cs then some (digitsVal cs) else none

/-- Model of the date parser behind `pd.to_datetime`: accepts the canonical
`YYYY-MM-DD` shape with a basic month/day range check, rejects anything
else.  The claims only need that some strings parse and garbage does not. -/
def parseDate (s : String) : Option PDate :=
  match splitOnChar '-' s.toList with
  | [ys, ms, ds] =>
    match digitsToNat ys, digitsToNat ms, digitsToNat ds with
    | some y, some m, some d =>
      if 1 ≤ m ∧ m ≤ 12 ∧ 1 ≤ d ∧ d ≤ 31 then some ⟨y, m, d⟩ else none
    | _, _, _ => none
  | _ => none

/-- Zero-padding used by the `%Y-%m-%d` rendering. -/
def padNat (width n : Nat) : String :=
  let s := toString n
  if s.length < width then String.mk (List.replicate (width - s.length) '0') ++ s else s

/-- Model of `Series.dt.strftime` with format `%Y-%m-%d`
(lines 71 and 85 of the source). -/
def fmtDate (d : PDate) : String :=
  padNat 4 d.year ++ "-" ++ padNat 2 d.month ++ "-" ++ padNat 2 d.day

/-- Model of the numeric parser behind `pd.to_numeric` (line 99): optional
sign, decimal digits, optional fractional part.  Floats are modelled
exactly as rationals. -/
def parseQ (s : String) : Option ℚ :=
  let core : List Char → Option ℚ := fun t =>
    match splitOnChar '.' t with
    | [ip] =>
      if ip.length != 0 && allDigits ip then
        some ((digitsVal ip : ℤ) : ℚ)
      else none
    | [ip, fp] =>
      if (ip.length != 0 || fp.length != 0) && allDigits ip && allDigits fp then
        some ((digitsVal ip : ℚ) + (digitsVal fp : ℚ) / ((10 : ℚ) ^ fp.length))
      else none
    | _ => none
  match s.toList with
  | '-' :: rest => (core rest).map (fun q => -q)
  | '+' :: rest => core rest
  | _ => core s.toList

/-- Insertion into a sorted list of rationals. -/
def insertLe (x : ℚ) : List ℚ → List ℚ
  | [] => [x]
  | y :: t => if x ≤ y then x :: y :: t else y :: insertLe x t

/-- Insertion sort of rationals (the sort behind the pandas median). -/
def sortLe : List ℚ → List ℚ
  | [] => []
  | x :: t => insertLe x (sortLe t)

/-- Model of `Series.median()` over the non-absent numeric entries of a
column (line 100): `none` when the list is empty (pandas returns `NaN`),
middle element of the sorted list for odd length, mean of the two middle
elements for even length. -/
def medianQ (xs : List ℚ) : Option ℚ :=
  match xs with
  | [] => none
  | _ =>
    let s := sortLe xs
    let n := s.length
    if n % 2 = 1 then some (s.getD (n / 2) 0)
    else some ((s.getD (n / 2 - 1) 0 + s.getD (n / 2) 0) / 2)

/-- Model of the simulation statements `df.loc[df.index[0], col] = None`
(line 60 for GENDER, line 90 for VALUE): the first cell of the column is
unconditionally overwritten with an absent value. -/
def simulateFirstNone (cells : List (Option String)) : List (Option String) :=
  match cells with
  | [] => []
  | _ :: t => none :: t

/-- Model of `Series.fillna(v)` on a string column (line 64). -/
def fillnaStr (cells : List (Option String)) (v : String) : List (Option String) :=
  cells.map (fun c => some (c.getD v))

/-- Model of `pd.to_numeric(col, errors=coerce)` (line 99): absent cells
stay absent, unparseable strings become absent, numeric strings parse. -/
def toNumericCoerce (cells : List (Option String)) : List (Option ℚ) :=
  cells.map (fun c => c.bind parseQ)

/-- Model of `Series.fillna(v)` on a numeric column (line 101). -/
def fillnaQ (cells : List (Option ℚ)) (v : ℚ) : List (Option ℚ) :=
  cells.map (fun c => some (c.getD v))

/-- The value used to fill absent entries of the coerced VALUE column
(lines 100 to 101): the median of the numeric entries when one exists,
otherwise `0`. -/
def valueFallback (raw : List (Option String)) : ℚ :=
  (medianQ ((toNumericCoerce (simulateFirstNone raw)).filterMap id)).getD 0

/-- The full cleaning of the observations VALUE column (lines 89 to 101):
overwrite the first cell with absent, coerce to numeric, fill absent
entries with the median-or-zero fallback. -/
def cleanValues (raw : List (Option String)) : List (Option ℚ) :=
  fillnaQ (toNumericCoerce (simulateFirstNone raw)) (valueFallback raw)

/-- The full cleaning of the patients GENDER column (lines 59 to 64):
overwrite the first cell with absent, then fill absent entries with the
literal `Unknown`. -/
def cleanGender (cells : List (Option String)) : List (Option String) :=
  fillnaStr (simulateFirstNone cells) "Unknown"

/-- Model of the Python expression `str(series)` applied to a whole pandas
Series (line 79): one single string rendering the entire column, index
numbers and values line by line followed by a dtype footer. -/
def seriesStr (cells : List (Option String)) : String :=
  String.intercalate "\n"
    ((cells.enum.map (fun p => toString p.1 ++ "    " ++ p.2.getD "NaN")) ++
      ["Name: CODE, dtype: object"])

/-- One row of `patients.csv` (columns from the source and spec). -/
structure PatientIn where
  Id : Option String
  BIRTHDATE : Option String
  GENDER : Option String
  RACE : Option String
  ETHNICITY : Option String
  MARITAL : Option String
  COUNTY : Option String
  STATE : Option String
  CITY : Option String
  ZIP : Option String
deriving DecidableEq, Repr

/-- One row of `encounters.csv`. -/
structure EncounterIn where
  Id : Option String
  START : Option String
  STOP : Option String
  PATIENT : Option String
  ENCOUNTER_CLASS : Option String
  CODE : Option String
  DESCRIPTION : Option String
  REASONCODE : Option String
  REASONDESCRIPTION : Option String
deriving DecidableEq, Repr

/-- One row of `observations.csv`. -/
structure ObservationIn where
  Id : Option String
  DATE : Option String
  PATIENT : Option String
  CODE : Option String
  DESCRIPTION : Option String
  VALUE : Option String
  UNIT : Option String
  TYPE : Option String
deriving DecidableEq, Repr

/-- One row of `df_patients_clean` after the rename of `Id` to `PATIENT`
(line 52), the column selection (line 56) and the GENDER cleaning. -/
structure PatientClean where
  PATIENT : Option String
  BIRTHDATE : Option String
  GENDER : Option String
  RACE : Option String
  ETHNICITY : Option String
  MARITAL : Option String
  COUNTY : Option String
  STATE : Option String
  CITY : Option String
  ZIP : Option String
deriving DecidableEq, Repr

/-- The cleaning of the patients table (lines 52 to 64): rename the key,
select the demographic columns, blank the first GENDER cell, fill absent
genders with `Unknown`. -/
def patientsClean (ps : List PatientIn) : List PatientClean :=
  List.zipWith
    (fun p g =>
      { PATIENT := p.Id, BIRTHDATE := p.BIRTHDATE, GENDER := g, RACE := p.RACE,
        ETHNICITY := p.ETHNICITY, MARITAL := p.MARITAL, COUNTY := p.COUNTY,
        STATE := p.STATE, CITY := p.CITY, ZIP := p.ZIP })
    ps (cleanGender (ps.map (fun p => p.GENDER)))

/-- Model of `pd.to_datetime` on one cell with the default raise policy:
an absent cell becomes an absent date (`NaT`) without error, an
unparseable string raises. -/
def toDatetimeCell (c : Option String) : Except String (Option PDate) :=
  match c with
  | none => Except.ok none
  | some s =>
    match parseDate s with
    | some d => Except.ok (some d)
    | none => Except.error s

/-- Model of `pd.to_datetime` on a whole column with the default raise
policy: the first unparseable string cell aborts the conversion of the
entire column. -/
def toDatetimeColumn : List (Option String) → Except String (List (Option PDate))
  | [] => Except.ok []
  | c :: t => do
    let d ← toDatetimeCell c
    let ds ← toDatetimeColumn t
    pure (d :: ds)

/-- One row of `df_encounters` after cleaning (lines 69 to 80):
parsed START and STOP, the derived ENCOUNTER_DATE display string, and the
CODE column overwritten by the scalar `str(series)` broadcast. -/
structure EncounterClean where
  Id : Option String
  START : Option PDate
  STOP : Option PDate
  PATIENT : Option String
  ENCOUNTER_CLASS : Option String
  CODE : Option String
  DESCRIPTION : Option String
  REASONCODE : Option String
  REASONDESCRIPTION : Option String
  ENCOUNTER_DATE : Option String
deriving DecidableEq, Repr

/-- Reassemble the cleaned encounter rows from the input rows and the two
parsed date columns. -/
def assembleEncounters (code : String) :
    List EncounterIn → List (Option PDate) → List (Option PDate) → List EncounterClean
  | e :: es, s1 :: ss, s2 :: ts =>
    { Id := e.Id, START := s1, STOP := s2, PATIENT := e.PATIENT,
      ENCOUNTER_CLASS := e.ENCOUNTER_CLASS, CODE := some code,
      DESCRIPTION := e.DESCRIPTION, REASONCODE := e.REASONCODE,
      REASONDESCRIPTION := e.REASONDESCRIPTION,
      ENCOUNTER_DATE := s1.map fmtDate } :: assembleEncounters code es ss ts
  | _, _, _ => []

/-- The cleaning of the encounters table (lines 69 to 80): convert START
and STOP with the raising date conversion, derive ENCOUNTER_DATE from
START, and overwrite every CODE cell with the single string rendering of
the whole original CODE column. -/
def encountersClean (es : List EncounterIn) : Except String (List EncounterClean) := do
  let starts ← toDatetimeColumn (es.map (fun e => e.START))
  let stops ← toDatetimeColumn (es.map (fun e => e.STOP))
  pure (assembleEncounters (seriesStr (es.map (fun e => e.CODE))) es starts stops)

/-- One row of `df_observations` after cleaning (lines 84 to 101). -/
structure ObservationClean where
  Id : Option String
  DATE : Option PDate
  PATIENT : Option String
  CODE : Option String
  DESCRIPTION : Option String
  VALUE : Option ℚ
  UNIT : Option String
  TYPE : Option String
  OBSERVATION_DATE : Option String
deriving DecidableEq, Repr

/-- Reassemble the cleaned observation rows from the input rows, the
parsed date column and the cleaned VALUE column. -/
def assembleObservations :
    List ObservationIn → List (Option PDate) → List (Option ℚ) → List ObservationClean
  | o :: os, d :: ds, v :: vs =>
    { Id := o.Id, DATE := d, PATIENT := o.PATIENT, CODE := o.CODE,
      DESCRIPTION := o.DESCRIPTION, VALUE := v, UNIT := o.UNIT, TYPE := o.TYPE,
      OBSERVATION_DATE := d.map fmtDate } :: assembleObservations os ds vs
  | _, _, _ => []

/-- The cleaning of the observations table (lines 84 to 101): convert DATE
with the raising date conversion, derive OBSERVATION_DATE, blank the
first VALUE cell, coerce VALUE to numeric and impute absent values. -/
def observationsClean (os : List ObservationIn) : Except String (List ObservationClean) := do
  let dates ← toDatetimeColumn (os.map (fun o => o.DATE))
  pure (assembleObservations os dates (cleanValues (os.map (fun o => o.VALUE))))

/-- Pandas equality on merge keys: two present keys match when equal, and
two absent (NaN) keys match each other — `pd.merge` puts all NA keys of
both sides into one shared group, unlike SQL; a present key never
matches an absent one. -/
def keyEq (a b : Option String) : Bool :=
  match a, b with
  | some x, some y => x == y
  | none, none => true
  | _, _ => false

/-- Model of `pd.merge(ls, rs, on=key, how=left)` row semantics: each left
row, in source order, paired with every matching right row in right-table
order, or with an absent right part when nothing matches. -/
def leftJoin {α β : Type} (ls : List α) (rs : List β)
    (kl : α → Option String) (kr : β → Option String) : List (α × Option β) :=
  ls.flatMap (fun l =>
    if (rs.filter (fun r => keyEq (kl l) (kr r))).isEmpty then [(l, none)]
    else (rs.filter (fun r => keyEq (kl l) (kr r))).map (fun r => (l, some r)))

/-- The first merge (lines 110 to 116): encounters with patient
demographics, left join on `PATIENT`. -/
def integratedEncounters (es : List EncounterClean) (ps : List PatientClean) :
    List (EncounterClean × Option PatientClean) :=
  leftJoin es ps (fun e => e.PATIENT) (fun p => p.PATIENT)

/-- The second merge (lines 124 to 130): integrated encounters with
observations, left join on `PATIENT`. -/
def unifiedData (ies : List (EncounterClean × Option PatientClean))
    (os : List ObservationClean) :
    List ((EncounterClean × Option PatientClean) × Option ObservationClean) :=
  leftJoin ies os (fun x => x.1.PATIENT) (fun o => o.PATIENT)

/-- One row of the final unified table after the rename (lines 148 to 161)
and the column selection (lines 165 to 179). -/
structure UnifiedRow where
  PATIENT : Option String
  GENDER : Option String
  BIRTHDATE : Option String
  CITY : Option String
  STATE : Option String
  ZIP : Option String
  Encounter_ID : Option String
  Encounter_Start_DateTime : Option PDate
  Encounter_End_DateTime : Option PDate
  Encounter_Type_Class : Option String
  Encounter_Code : Option String
  Encounter_Description : Option String
  REASONCODE : Option String
  REASONDESCRIPTION : Option String
  ENCOUNTER_DATE : Option String
  Observation_ID : Option String
  OBSERVATION_DATE : Option String
  Observation_Code : Option String
  Observation_Description : Option String
  Observation_Value : Option ℚ
  Observation_Unit : Option String
  Observation_Type : Option String
deriving DecidableEq, Repr

/-- The rename-and-select projection of one joined row onto the final
column set (lines 148 to 179); person and observation fields are absent
when the corresponding join found no match. -/
def projectRow (x : (EncounterClean × Option PatientClean) × Option ObservationClean) :
    UnifiedRow :=
  let e := x.1.1
  let p := x.1.2
  let o := x.2
  { PATIENT := e.PATIENT
    GENDER := p.bind (fun q => q.GENDER)
    BIRTHDATE := p.bind (fun q => q.BIRTHDATE)
    CITY := p.bind (fun q => q.CITY)
    STATE := p.bind (fun q => q.STATE)
    ZIP := p.bind (fun q => q.ZIP)
    Encounter_ID := e.Id
    Encounter_Start_DateTime := e.START
    Encounter_End_DateTime := e.STOP
    Encounter_Type_Class := e.ENCOUNTER_CLASS
    Encounter_Code := e.CODE
    Encounter_Description := e.DESCRIPTION
    REASONCODE := e.REASONCODE
    REASONDESCRIPTION := e.REASONDESCRIPTION
    ENCOUNTER_DATE := e.ENCOUNTER_DATE
    Observation_ID := o.bind (fun q => q.Id)
    OBSERVATION_DATE := o.bind (fun q => q.OBSERVATION_DATE)
    Observation_Code := o.bind (fun q => q.CODE)
    Observation_Description := o.bind (fun q => q.DESCRIPTION)
    Observation_Value := o.bind (fun q => q.VALUE)
    Observation_Unit := o.bind (fun q => q.UNIT)
    Observation_Type := o.bind (fun q => q.TYPE) }

/-- The three input tables of one run. -/
structure Inputs where
  patients : List PatientIn
  encounters : List EncounterIn
  observations : List ObservationIn
deriving DecidableEq, Repr

/-- The whole transform pipeline (lines 52 to 179): clean the three
tables, perform the two left joins, project the final columns.  An
unparseable date cell raises and aborts the run (the `Except.error`
case). -/
def pipeline (inp : Inputs) : Except String (List UnifiedRow) := do
  let pc := patientsClean inp.patients
  let ec ← encountersClean inp.encounters
  let oc ← observationsClean inp.observations
  pure ((unifiedData (integratedEncounters ec pc) oc).map projectRow)

/-- `true` exactly when the run completes without raising. -/
def pipelineSucceeds (inp : Inputs) : Bool :=
  match pipeline inp with
  | Except.ok _ => true
  | Except.error _ => false

/-- The rows the successful run produces (empty list when the run
raises); used to evaluate theorems on concrete inputs. -/
def pipeOut (inp : Inputs) : List UnifiedRow :=
  (pipeline inp).toOption.getD []

/-- A string column parses as dates when every present cell parses;
absent cells are allowed. -/
def columnParses (cells : List (Option String)) : Bool :=
  cells.all (fun c => c.all (fun s => (parseDate s).isSome))

/-- All date columns of the run parse: encounter START and STOP and
observation DATE. -/
def allDatesParse (inp : Inputs) : Bool :=
  columnParses (inp.encounters.map (fun e => e.START)) &&
  columnParses (inp.encounters.map (fun e => e.STOP)) &&
  columnParses (inp.observations.map (fun o => o.DATE))

/-- Number of measurement rows whose PATIENT matches a given key. -/
def obsCountFor (os : List ObservationIn) (k : Option String) : Nat :=
  os.countP (fun o => keyEq k o.PATIENT)

/-- Number of person rows whose id matches a given key. -/
def patCountFor (ps : List PatientIn) (k : Option String) : Nat :=
  ps.countP (fun p => keyEq k p.Id)

/-- Column naming of `pd.merge(on=key, suffixes=(sl, sr))`: left columns
keep their order, a non-key column present on both sides receives the
left suffix on the left copy and the right suffix on the right copy, the
right key column is dropped. -/
def mergeCols (lcols rcols : List String) (key sl sr : String) : List String :=
  (lcols.map (fun c => if c ≠ key ∧ c ∈ rcols then c ++ sl else c)) ++
  ((rcols.filter (fun c => c != key)).map (fun c => if c ∈ lcols then c ++ sr else c))

/-- Columns of `df_patients_clean` (line 56). -/
def patientsCleanColumns : List String :=
  ["PATIENT", "BIRTHDATE", "GENDER", "RACE", "ETHNICITY", "MARITAL", "COUNTY", "STATE", "CITY", "ZIP"]

/-- Columns of `df_encounters` after cleaning (spec section 6 plus the
derived ENCOUNTER_DATE). -/
def encountersColumns : List String :=
  ["Id", "START", "STOP", "PATIENT", "ENCOUNTER_CLASS", "CODE", "DESCRIPTION",
   "REASONCODE", "REASONDESCRIPTION", "ENCOUNTER_DATE"]

/-- Columns of `df_observations` after cleaning (spec section 6 plus the
derived OBSERVATION_DATE). -/
def observationsColumns : List String :=
  ["Id", "DATE", "PATIENT", "CODE", "DESCRIPTION", "VALUE", "UNIT", "TYPE",
   "OBSERVATION_DATE"]

/-- Columns of the first merge result (lines 110 to 116,
suffixes `_encounter` and `_patient`). -/
def integratedColumns : List String :=
  mergeCols encountersColumns patientsCleanColumns "PATIENT" "_encounter" "_patient"

/-- Columns of the second merge result (lines 124 to 130,
suffixes `_encounter` and `_observation`). -/
def unifiedColumns : List String :=
  mergeCols integratedColumns observationsColumns "PATIENT" "_encounter" "_observation"

/-- The exact ordered output column list `final_unified_columns`
(lines 165 to 172 of the source). -/
def finalUnifiedColumns : List String :=
  ["PATIENT", "GENDER", "BIRTHDATE", "CITY", "STATE", "ZIP",
   "Encounter_ID", "Encounter_Start_DateTime", "Encounter_End_DateTime",
   "Encounter_Type_Class", "Encounter_Code", "Encounter_Description",
   "REASONCODE", "REASONDESCRIPTION", "ENCOUNTER_DATE",
   "Observation_ID", "OBSERVATION_DATE", "Observation_Code", "Observation_Description",
   "Observation_Value", "Observation_Unit", "Observation_Type"]

/-- Model of the final projection over a generic column store
(lines 175 to 179): every listed column is taken from the table when
present and otherwise inserted filled with the null placeholder; the
result holds exactly the listed columns in order. -/
def ensureAndSelect (t : List (String × List (Option String))) (n : Nat) :
    List (String × List (Option String)) :=
  finalUnifiedColumns.map (fun c => (c, (t.lookup c).getD (List.replicate n none)))

/-- Header row written by `to_csv(index=False)` (line 192): the column
names only, no index column. -/
def csvHeader (t : List (String × List (Option String))) : List String :=
  t.map (fun c => c.1)

/-- Observable outcome of the sink stage (lines 190 to 218). -/
structure SinkResult where
  csvFile : List UnifiedRow
  dbTable : Option (List UnifiedRow)
  dbErrorLogged : Bool
  connClosed : Bool
deriving DecidableEq, Repr

/-- Model of `to_sql` (line 202): succeeds or raises according to the
injected failure flag. -/
def dbWrite (rows : List UnifiedRow) (dbFails : Bool) : Except String (List UnifiedRow) :=
  if dbFails then Except.error "Error loading data into SQLite" else Except.ok rows

/-- The sink stage (lines 190 to 218): the CSV export completes first
(line 192); the database write runs inside try/except with the connection
close in the finally block, so a database failure is logged, leaves the
CSV content untouched, and the connection is closed on both paths. -/
def runSink (rows : List UnifiedRow) (dbFails : Bool) : SinkResult :=
  let csv := rows
  match dbWrite rows dbFails with
  | Except.ok stored =>
    { csvFile := csv, dbTable := some stored, dbErrorLogged := false, connClosed := true }
  | Except.error _ =>
    { csvFile := csv, dbTable := none, dbErrorLogged := true, connClosed := true }

/-- A patient row with only the id and gender set, for concrete runs. -/
def mkPatient (i g : Option String) : PatientIn :=
  { Id := i, BIRTHDATE := none, GENDER := g, RACE := none, ETHNICITY := none,
    MARITAL := none, COUNTY := none, STATE := none, CITY := none, ZIP := none }

/-- An encounter row with only the id and patient key set. -/
def mkEncounter (i p : Option String) : EncounterIn :=
  { Id := i, START := none, STOP := none, PATIENT := p, ENCOUNTER_CLASS := none,
    CODE := none, DESCRIPTION := none, REASONCODE := none, REASONDESCRIPTION := none }

/-- An observation row with only the id, patient key and value set. -/
def mkObservation (i p v : Option String) : ObservationIn :=
  { Id := i, DATE := none, PATIENT := p, CODE := none, DESCRIPTION := none,
    VALUE := v, UNIT := none, TYPE := none }

/-- A run with one person, one visit of that person, one visit of an
unknown person, and two measurements of the person. -/
def uniquePatientInput : Inputs :=
  { patients := [mkPatient (some "p1") (some "M")],
    encounters := [mkEncounter (some "v1") (some "p1"),
                   mkEncounter (some "v2") (some "p2")],
    observations := [mkObservation (some "o1") (some "p1") none,
                     mkObservation (some "o2") (some "p1") (some "7")] }

/-- A run whose persons table repeats the same person id twice. -/
def dupPatientInput : Inputs :=
  { patients := [mkPatient (some "p1") (some "F"), mkPatient (some "p1") (some "F")],
    encounters := [mkEncounter (some "v1") (some "p1")],
    observations := [] }

/-- A run with one visit whose START cell is not a parseable date. -/
def badDateInput : Inputs :=
  { patients := [],
    encounters := [{ mkEncounter (some "v1") (some "p1") with
                       START := some "not-a-date" }],
    observations := [] }

/-- A run with a supplied gender on the first person and a visit of an
unknown person. -/
def genderInput : Inputs :=
  { patients := [mkPatient (some "p1") (some "M")],
    encounters := [mkEncounter (some "v1") (some "p1"),
                   mkEncounter (some "v2") (some "p2")],
    observations := [] }

/-- A run with one visit and two measurements whose PATIENT keys are all
absent: pandas matches the absent keys against each other. -/
def nullKeyInput : Inputs :=
  { patients := [mkPatient (some "p1") (some "M")],
    encounters := [mkEncounter (some "v1") none],
    observations := [mkObservation (some "o1") none none,
                     mkObservation (some "o2") none (some "3")] }

/-- A run with one person whose id is absent and one visit whose PATIENT
is absent: pandas matches the two absent keys. -/
def nullKeyGenderInput : Inputs :=
  { patients := [mkPatient none (some "F")],
    encounters := [mkEncounter (some "v1") none],
    observations := [] }

/-- A measurement VALUE column with numeric and non-numeric cells. -/
def valueColumnSample : List (Option String) :=
  [some "7", some "2", some "abc", some "4"]

/-! ### Generic lemmas about the embedded left merge -/

theorem leftJoin_cons {α β : Type} (l : α) (ls : List α) (rs : List β)
    (kl : α → Option String) (kr : β → Option String) :
    leftJoin (l :: ls) rs kl kr =
      (if (rs.filter (fun r => keyEq (kl l) (kr r))).isEmpty then [(l, none)]
       else (rs.filter (fun r => keyEq (kl l) (kr r))).map (fun r => (l, some r))) ++
      leftJoin ls rs kl kr := by
  simp [leftJoin]

theorem leftJoin_length {α β : Type} (ls : List α) (rs : List β)
    (kl : α → Option String) (kr : β → Option String) :
    (leftJoin ls rs kl kr).length =
      (ls.map (fun l => max 1 (rs.countP (fun r => keyEq (kl l) (kr r))))).sum := by
  induction ls with
  | nil => rfl
  | cons l t ih =>
    rw [leftJoin_cons, List.length_append, ih, List.map_cons, List.sum_cons]
    congr 1
    rcases h : rs.filter (fun r => keyEq (kl l) (kr r)) with _ | ⟨m, ms⟩
    · simp [List.countP_eq_length_filter, h]
    · have hlen : (rs.filter (fun r => keyEq (kl l) (kr r))).length = ms.length + 1 := by
        rw [h]; rfl
      simp only [h, List.isEmpty_cons, List.length_map, if_false, Bool.false_eq_true]
      rw [List.countP_eq_length_filter, hlen]
      simp only [List.length_cons]
      omega

theorem leftJoin_map_fst {α β : Type} (ls : List α) (rs : List β)
    (kl : α → Option String) (kr : β → Option String) :
    (leftJoin ls rs kl kr).map Prod.fst =
      ls.flatMap (fun l =>
        List.replicate (max 1 (rs.countP (fun r => keyEq (kl l) (kr r)))) l) := by
  induction ls with
  | nil => rfl
  | cons l t ih =>
    rw [leftJoin_cons, List.map_append, ih, List.flatMap_cons]
    congr 1
    rcases h : rs.filter (fun r => keyEq (kl l) (kr r)) with _ | ⟨m, ms⟩
    · simp [List.countP_eq_length_filter, h]
    · have hcnt : rs.countP (fun r => keyEq (kl l) (kr r)) = ms.length + 1 := by
        rw [List.countP_eq_length_filter, h]; rfl
      have hmax : max 1 (ms.length + 1) = ms.length + 1 := by omega
      simp only [h, List.isEmpty_cons, if_false, Bool.false_eq_true, hcnt, hmax,
        List.map_map]
      have : (Prod.fst ∘ fun r : β => (l, some r)) = fun _ => l := rfl
      rw [this, List.map_const']
      rfl

theorem leftJoin_mem {α β : Type} {ls : List α} {rs : List β}
    {kl : α → Option String} {kr : β → Option String}
    {x : α × Option β} (hx : x ∈ leftJoin ls rs kl kr) :
    x.1 ∈ ls ∧
    (∀ r, x.2 = some r → r ∈ rs ∧ keyEq (kl x.1) (kr r) = true) ∧
    (x.2 = none → rs.countP (fun r => keyEq (kl x.1) (kr r)) = 0) := by
  simp only [leftJoin, List.mem_flatMap] at hx
  obtain ⟨l, hl, hx⟩ := hx
  by_cases h : (rs.filter (fun r => keyEq (kl l) (kr r))).isEmpty
  · rw [if_pos h] at hx
    have hx1 : x = (l, none) := by simpa using hx
    subst hx1
    refine ⟨hl, ?_, ?_⟩
    · intro r hr; cases hr
    · intro _
      rw [List.countP_eq_length_filter]
      simp only [List.isEmpty_eq_true] at h
      simp [h]
  · rw [if_neg h] at hx
    obtain ⟨r, hr, hx1⟩ := List.mem_map.mp hx
    obtain ⟨hrs, hkey⟩ := List.mem_filter.mp hr
    subst hx1
    refine ⟨hl, ?_, ?_⟩
    · intro r2 hr2
      cases hr2
      exact ⟨hrs, hkey⟩
    · intro hnone; cases hnone

/-! ### Lemmas about the date conversion -/

theorem toDatetimeColumn_cons (c : Option String) (t : List (Option String)) :
    toDatetimeColumn (c :: t) =
      match toDatetimeCell c with
      | Except.error e => Except.error e
      | Except.ok d =>
        match toDatetimeColumn t with
        | Except.error e => Except.error e
        | Except.ok ds => Except.ok (d :: ds) := by
  cases hc : toDatetimeCell c <;> cases ht : toDatetimeColumn t <;>
    simp [toDatetimeColumn, hc, ht, Bind.bind, Except.bind, pure, Except.pure]

theorem toDatetimeCell_ok_iff (c : Option String) :
    (∃ d, toDatetimeCell c = Except.ok d) ↔ c.all (fun s => (parseDate s).isSome) = true := by
  cases c with
  | none => simp [toDatetimeCell, Option.all]
  | some s => cases hp : parseDate s <;> simp [toDatetimeCell, hp, Option.all]

theorem toDatetimeColumn_ok_iff (cells : List (Option String)) :
    (∃ ds, toDatetimeColumn cells = Except.ok ds) ↔ columnParses cells = true := by
  induction cells with
  | nil => simp [toDatetimeColumn, columnParses]
  | cons c t ih =>
    rw [toDatetimeColumn_cons]
    have hcp : columnParses (c :: t) =
        (c.all (fun s => (parseDate s).isSome) && columnParses t) := by
      simp [columnParses]
    rw [hcp]
    cases hc : toDatetimeCell c with
    | error e =>
      have : ¬ (∃ d, toDatetimeCell c = Except.ok d) := by simp [hc]
      rw [toDatetimeCell_ok_iff] at this
      simp only [Bool.not_eq_true] at this
      simp [this]
    | ok d =>
      have hcell : c.all (fun s => (parseDate s).isSome) = true :=
        (toDatetimeCell_ok_iff c).mp ⟨d, hc⟩
      rw [hcell, Bool.true_and]
      cases ht : toDatetimeColumn t with
      | error e =>
        have : ¬ (∃ ds, toDatetimeColumn t = Except.ok ds) := by simp [ht]
        rw [ih] at this
        simp only [Bool.not_eq_true] at this
        simp [this]
      | ok ds =>
        have : columnParses t = true := ih.mp ⟨ds, ht⟩
        simp [this]

theorem toDatetimeColumn_ok_length :
    ∀ {cells : List (Option String)} {ds : List (Option PDate)},
      toDatetimeColumn cells = Except.ok ds → ds.length = cells.length := by
  intro cells
  induction cells with
  | nil =>
    intro ds h
    simp only [toDatetimeColumn, Except.ok.injEq] at h
    subst h; rfl
  | cons c t ih =>
    intro ds h
    rw [toDatetimeColumn_cons] at h
    cases hc : toDatetimeCell c with
    | error e => rw [hc] at h; cases h
    | ok d =>
      rw [hc] at h
      cases ht : toDatetimeColumn t with
      | error e => rw [ht] at h; cases h
      | ok ds2 =>
        rw [ht] at h
        cases h
        simp [ih ht]

/-! ### Lemmas about the cleaning stages -/

theorem simulateFirstNone_length (cells : List (Option String)) :
    (simulateFirstNone cells).length = cells.length := by
  cases cells <;> rfl

theorem cleanGender_length (cells : List (Option String)) :
    (cleanGender cells).length = cells.length := by
  simp [cleanGender, fillnaStr, simulateFirstNone_length]

theorem cleanValues_length (raw : List (Option String)) :
    (cleanValues raw).length = raw.length := by
  simp [cleanValues, fillnaQ, toNumericCoerce, simulateFirstNone_length]

theorem cleanGender_isSome {cells : List (Option String)} :
    ∀ c ∈ cleanGender cells, c.isSome = true := by
  intro c hc
  simp only [cleanGender, fillnaStr, List.mem_map] at hc
  obtain ⟨a, _, ha⟩ := hc
  subst ha
  rfl

theorem cleanValues_isSome {raw : List (Option String)} :
    ∀ c ∈ cleanValues raw, c.isSome = true := by
  intro c hc
  simp only [cleanValues, fillnaQ, List.mem_map] at hc
  obtain ⟨a, _, ha⟩ := hc
  subst ha
  rfl

theorem zipWith_fst_proj {α β γ : Type} (h : α → γ) :
    ∀ (l1 : List α) (l2 : List β), l1.length ≤ l2.length →
      List.zipWith (fun a _ => h a) l1 l2 = l1.map h := by
  intro l1
  induction l1 with
  | nil => intro l2 _; rfl
  | cons a t ih =>
    intro l2 hl
    cases l2 with
    | nil => simp at hl
    | cons b t2 =>
      simp only [List.zipWith_cons_cons, List.map_cons, List.cons.injEq]
      exact ⟨trivial, ih t2 (by simpa using hl)⟩

theorem zipWith_snd_proj {α β : Type} :
    ∀ (l1 : List α) (l2 : List β), l2.length ≤ l1.length →
      List.zipWith (fun _ b => b) l1 l2 = l2 := by
  intro l1
  induction l1 with
  | nil =>
    intro l2 hl
    cases l2 with
    | nil => rfl
    | cons b t2 => simp at hl
  | cons a t ih =>
    intro l2 hl
    cases l2 with
    | nil => rfl
    | cons b t2 =>
      simp only [List.zipWith_cons_cons, List.cons.injEq]
      exact ⟨trivial, ih t2 (by simpa using hl)⟩

theorem patientsClean_map_patient (ps : List PatientIn) :
    (patientsClean ps).map (fun p => p.PATIENT) = ps.map (fun p => p.Id) := by
  unfold patientsClean
  rw [List.map_zipWith]
  exact zipWith_fst_proj (fun p : PatientIn => p.Id) ps _
    (by rw [cleanGender_length, List.length_map])

theorem patientsClean_map_gender (ps : List PatientIn) :
    (patientsClean ps).map (fun p => p.GENDER) = cleanGender (ps.map (fun p => p.GENDER)) := by
  unfold patientsClean
  rw [List.map_zipWith]
  exact zipWith_snd_proj ps _ (by rw [cleanGender_length, List.length_map])

theorem assembleEncounters_facts (code : String) :
    ∀ (es : List EncounterIn) (ss ts : List (Option PDate)),
      ss.length = es.length → ts.length = es.length →
      ((assembleEncounters code es ss ts).map (fun e => e.PATIENT) =
          es.map (fun e => e.PATIENT) ∧
       (assembleEncounters code es ss ts).map (fun e => e.Id) = es.map (fun e => e.Id) ∧
       ∀ e ∈ assembleEncounters code es ss ts, e.CODE = some code) := by
  intro es
  induction es with
  | nil =>
    intro ss ts _ _
    refine ⟨rfl, rfl, ?_⟩
    intro e he
    cases ss <;> cases ts <;> simp [assembleEncounters] at he
  | cons e est ih =>
    intro ss ts hs ht
    cases ss with
    | nil => simp at hs
    | cons s1 sst =>
      cases ts with
      | nil => simp at ht
      | cons t1 tst =>
        have hs2 : sst.length = est.length := by simpa using hs
        have ht2 : tst.length = est.length := by simpa using ht
        obtain ⟨h1, h2, h3⟩ := ih sst tst hs2 ht2
        refine ⟨?_, ?_, ?_⟩
        · simp only [assembleEncounters, List.map_cons, h1]
        · simp only [assembleEncounters, List.map_cons, h2]
        · intro x hx
          simp only [assembleEncounters, List.mem_cons] at hx
          rcases hx with hx | hx
          · subst hx; rfl
          · exact h3 x hx

theorem assembleObservations_facts :
    ∀ (os : List ObservationIn) (ds : List (Option PDate)) (vs : List (Option ℚ)),
      ds.length = os.length → vs.length = os.length →
      ((assembleObservations os ds vs).map (fun o => o.PATIENT) =
          os.map (fun o => o.PATIENT) ∧
       (assembleObservations os ds vs).map (fun o => o.VALUE) = vs) := by
  intro os
  induction os with
  | nil =>
    intro ds vs hd hv
    cases vs with
    | nil => exact ⟨rfl, rfl⟩
    | cons v vt => simp at hv
  | cons o ost ih =>
    intro ds vs hd hv
    cases ds with
    | nil => simp at hd
    | cons d dst =>
      cases vs with
      | nil => simp at hv
      | cons v vst =>
        have hd2 : dst.length = ost.length := by simpa using hd
        have hv2 : vst.length = ost.length := by simpa using hv
        obtain ⟨h1, h2⟩ := ih dst vst hd2 hv2
        exact ⟨by simp only [assembleObservations, List.map_cons, h1],
          by simp only [assembleObservations, List.map_cons, h2]⟩

/-! ### Decomposition of successful runs -/

theorem encountersClean_ok_elim {es : List EncounterIn} {ec : List EncounterClean}
    (h : encountersClean es = Except.ok ec) :
    ∃ ss ts, toDatetimeColumn (es.map (fun e => e.START)) = Except.ok ss ∧
      toDatetimeColumn (es.map (fun e => e.STOP)) = Except.ok ts ∧
      ec = assembleEncounters (seriesStr (es.map (fun e => e.CODE))) es ss ts := by
  unfold encountersClean at h
  cases hs : toDatetimeColumn (es.map (fun e => e.START)) with
  | error e => rw [hs] at h; simp [Bind.bind, Except.bind] at h
  | ok ss =>
    rw [hs] at h
    cases ht : toDatetimeColumn (es.map (fun e => e.STOP)) with
    | error e => rw [ht] at h; simp [Bind.bind, Except.bind] at h
    | ok ts =>
      rw [ht] at h
      simp only [Bind.bind, Except.bind, pure, Except.pure, Except.ok.injEq] at h
      exact ⟨ss, ts, rfl, rfl, h.symm⟩

theorem observationsClean_ok_elim {os : List ObservationIn} {oc : List ObservationClean}
    (h : observationsClean os = Except.ok oc) :
    ∃ ds, toDatetimeColumn (os.map (fun o => o.DATE)) = Except.ok ds ∧
      oc = assembleObservations os ds (cleanValues (os.map (fun o => o.VALUE))) := by
  unfold observationsClean at h
  cases hd : toDatetimeColumn (os.map (fun o => o.DATE)) with
  | error e => rw [hd] at h; simp [Bind.bind, Except.bind] at h
  | ok ds =>
    rw [hd] at h
    simp only [Bind.bind, Except.bind, pure, Except.pure, Except.ok.injEq] at h
    exact ⟨ds, rfl, h.symm⟩

theorem pipeline_ok_elim {inp : Inputs} {t : List UnifiedRow}
    (h : pipeline inp = Except.ok t) :
    ∃ ec oc, encountersClean inp.encounters = Except.ok ec ∧
      observationsClean inp.observations = Except.ok oc ∧
      t = (unifiedData (integratedEncounters ec (patientsClean inp.patients)) oc).map
            projectRow := by
  unfold pipeline at h
  cases he : encountersClean inp.encounters with
  | error e => rw [he] at h; simp [Bind.bind, Except.bind] at h
  | ok ec =>
    rw [he] at h
    cases ho : observationsClean inp.observations with
    | error e => rw [ho] at h; simp [Bind.bind, Except.bind] at h
    | ok oc =>
      rw [ho] at h
      simp only [Bind.bind, Except.bind, pure, Except.pure, Except.ok.injEq] at h
      exact ⟨ec, oc, rfl, rfl, h.symm⟩

theorem encountersClean_map_patient {es : List EncounterIn} {ec : List EncounterClean}
    (h : encountersClean es = Except.ok ec) :
    ec.map (fun e => e.PATIENT) = es.map (fun e => e.PATIENT) := by
  obtain ⟨ss, ts, hs, ht, hec⟩ := encountersClean_ok_elim h
  have hsl : ss.length = es.length := by
    have := toDatetimeColumn_ok_length hs; simpa using this
  have htl : ts.length = es.length := by
    have := toDatetimeColumn_ok_length ht; simpa using this
  subst hec
  exact (assembleEncounters_facts _ es ss ts hsl htl).1

theorem encountersClean_map_id {es : List EncounterIn} {ec : List EncounterClean}
    (h : encountersClean es = Except.ok ec) :
    ec.map (fun e => e.Id) = es.map (fun e => e.Id) := by
  obtain ⟨ss, ts, hs, ht, hec⟩ := encountersClean_ok_elim h
  have hsl : ss.length = es.length := by
    have := toDatetimeColumn_ok_length hs; simpa using this
  have htl : ts.length = es.length := by
    have := toDatetimeColumn_ok_length ht; simpa using this
  subst hec
  exact (assembleEncounters_facts _ es ss ts hsl htl).2.1

theorem encountersClean_code {es : List EncounterIn} {ec : List EncounterClean}
    (h : encountersClean es = Except.ok ec) :
    ∀ e ∈ ec, e.CODE = some (seriesStr (es.map (fun x => x.CODE))) := by
  obtain ⟨ss, ts, hs, ht, hec⟩ := encountersClean_ok_elim h
  have hsl : ss.length = es.length := by
    have := toDatetimeColumn_ok_length hs; simpa using this
  have htl : ts.length = es.length := by
    have := toDatetimeColumn_ok_length ht; simpa using this
  subst hec
  exact (assembleEncounters_facts _ es ss ts hsl htl).2.2

theorem observationsClean_map_patient {os : List ObservationIn} {oc : List ObservationClean}
    (h : observationsClean os = Except.ok oc) :
    oc.map (fun o => o.PATIENT) = os.map (fun o => o.PATIENT) := by
  obtain ⟨ds, hd, hoc⟩ := observationsClean_ok_elim h
  have hdl : ds.length = os.length := by
    have := toDatetimeColumn_ok_length hd; simpa using this
  have hvl : (cleanValues (os.map (fun o => o.VALUE))).length = os.length := by
    rw [cleanValues_length, List.length_map]
  subst hoc
  exact (assembleObservations_facts os ds _ hdl hvl).1

/-! ### Counting patient matches -/

theorem keyEq_trans_of (k a b : Option String)
    (h1 : keyEq k a = true) (h2 : keyEq k b = true) : keyEq a b = true := by
  cases k with
  | none =>
    cases a <;> cases b <;> simp_all [keyEq]
  | some x =>
    cases a with
    | none => simp [keyEq] at h1
    | some y =>
      cases b with
      | none => simp [keyEq] at h2
      | some z =>
        simp only [keyEq, beq_iff_eq] at h1 h2 ⊢
        rw [← h1, ← h2]

theorem countP_keyEq_le_one_of_pairwise {α : Type} {l : List α} {f : α → Option String}
    (hp : List.Pairwise (fun a b => keyEq (f a) (f b) = false) l) (k : Option String) :
    l.countP (fun a => keyEq k (f a)) ≤ 1 := by
  induction l with
  | nil => simp
  | cons a t ih =>
    rw [List.pairwise_cons] at hp
    rw [List.countP_cons]
    by_cases hk : keyEq k (f a) = true
    · have hz : t.countP (fun b => keyEq k (f b)) = 0 := by
        rw [List.countP_eq_zero]
        intro b hb hkb
        have hmatch : keyEq (f a) (f b) = true := keyEq_trans_of k (f a) (f b) hk hkb
        have hfalse := hp.1 b hb
        rw [hfalse] at hmatch
        cases hmatch
      rw [hz]
      simp [hk]
    · have hz : (if keyEq k (f a) = true then 1 else 0) = 0 := by simp [hk]
      rw [hz, Nat.add_zero]
      exact ih hp.2

theorem patCountFor_le_one {ps : List PatientIn}
    (hu : List.Pairwise (fun p q => keyEq p.Id q.Id = false) ps) :
    ∀ k, patCountFor ps k ≤ 1 := by
  intro k
  exact countP_keyEq_le_one_of_pairwise hu k

theorem patientsClean_countP (ps : List PatientIn) (k : Option String) :
    (patientsClean ps).countP (fun p => keyEq k p.PATIENT) = patCountFor ps k := by
  have h1 : (patientsClean ps).countP (fun p => keyEq k p.PATIENT) =
      ((patientsClean ps).map (fun p => p.PATIENT)).countP (fun v => keyEq k v) := by
    rw [List.countP_map]
    rfl
  rw [h1, patientsClean_map_patient, List.countP_map]
  rfl

theorem obsCountFor_clean {os : List ObservationIn} {oc : List ObservationClean}
    (h : observationsClean os = Except.ok oc) (k : Option String) :
    oc.countP (fun o => keyEq k o.PATIENT) = obsCountFor os k := by
  have h1 : oc.countP (fun o => keyEq k o.PATIENT) =
      (oc.map (fun o => o.PATIENT)).countP (fun v => keyEq k v) := by
    rw [List.countP_map]
    rfl
  rw [h1, observationsClean_map_patient h, List.countP_map]
  rfl

/-! ### Row count of the unified table -/

theorem leftJoin_map_fst_of_unique {α β : Type} (ls : List α) (rs : List β)
    (kl : α → Option String) (kr : β → Option String)
    (hu : ∀ k, rs.countP (fun r => keyEq k (kr r)) ≤ 1) :
    (leftJoin ls rs kl kr).map Prod.fst = ls := by
  rw [leftJoin_map_fst]
  have hone : ∀ l : α, max 1 (rs.countP (fun r => keyEq (kl l) (kr r))) = 1 := by
    intro l
    have := hu (kl l)
    omega
  induction ls with
  | nil => rfl
  | cons l t ih =>
    rw [List.flatMap_cons, hone l, ih]
    rfl

/-- Claim C1 (amended): on a run that completes, when no two person rows
have matching ids under the merge key matching (pairwise distinct
present ids and at most one absent id — the data-model invariant that
person ids are unique), the row count of the final unified table is the
sum over visit rows of the maximum of one and the number of measurement
rows whose PATIENT matches the visit PATIENT, absent keys matching each
other as pandas does; without the invariant each visit row is further
duplicated once per matching person row. -/
theorem claim1_row_count (inp : Inputs) (t : List UnifiedRow)
    (hu : List.Pairwise (fun p q => keyEq p.Id q.Id = false) inp.patients)
    (h : pipeline inp = Except.ok t) :
    t.length = (inp.encounters.map
      (fun v => max 1 (obsCountFor inp.observations v.PATIENT))).sum := by
  obtain ⟨ec, oc, he, ho, ht⟩ := pipeline_ok_elim h
  subst ht
  rw [List.length_map, unifiedData, leftJoin_length]
  have hintfst : (integratedEncounters ec (patientsClean inp.patients)).map Prod.fst = ec := by
    rw [integratedEncounters]
    apply leftJoin_map_fst_of_unique
    intro k
    rw [patientsClean_countP]
    exact patCountFor_le_one hu k
  have hmm : (integratedEncounters ec (patientsClean inp.patients)).map
      (fun x => max 1 (oc.countP (fun o => keyEq x.1.PATIENT o.PATIENT))) =
      ec.map (fun e => max 1 (oc.countP (fun o => keyEq e.PATIENT o.PATIENT))) := by
    have h2 := congrArg
      (List.map (fun e : EncounterClean =>
        max 1 (oc.countP (fun o => keyEq e.PATIENT o.PATIENT)))) hintfst
    rw [List.map_map] at h2
    exact h2
  rw [hmm]
  have hks : ec.map (fun e => e.PATIENT) = inp.encounters.map (fun e => e.PATIENT) :=
    encountersClean_map_patient he
  have h3 : ec.map (fun e => max 1 (oc.countP (fun o => keyEq e.PATIENT o.PATIENT))) =
      inp.encounters.map (fun v => max 1 (obsCountFor inp.observations v.PATIENT)) := by
    have e1 : ec.map (fun e => max 1 (oc.countP (fun o => keyEq e.PATIENT o.PATIENT))) =
        (ec.map (fun e => e.PATIENT)).map
          (fun k => max 1 (oc.countP (fun o => keyEq k o.PATIENT))) := by
      rw [List.map_map]
      rfl
    have e2 : (inp.encounters.map (fun e => e.PATIENT)).map
          (fun k => max 1 (oc.countP (fun o => keyEq k o.PATIENT))) =
        inp.encounters.map (fun v => max 1 (obsCountFor inp.observations v.PATIENT)) := by
      rw [List.map_map]
      apply List.map_congr_left
      intro v _
      show max 1 (oc.countP (fun o => keyEq v.PATIENT o.PATIENT)) = _
      rw [obsCountFor_clean ho]
    rw [e1, hks, e2]
  rw [h3]

/-! ### Order preservation of the two merges -/

theorem flatMap_congr_left {α β : Type} {l : List α} {f g : α → List β}
    (h : ∀ a ∈ l, f a = g a) : l.flatMap f = l.flatMap g := by
  rw [List.flatMap_def, List.flatMap_def, List.map_congr_left h]

theorem replicate_flatMap {α β : Type} (n : Nat) (x : α) (f : α → List β) :
    (List.replicate n x).flatMap f = (List.replicate n (f x)).flatten := by
  rw [List.flatMap_def, List.map_replicate]

theorem assembleEncounters_map_pair (code : String) :
    ∀ (es : List EncounterIn) (ss ts : List (Option PDate)),
      ss.length = es.length → ts.length = es.length →
      (assembleEncounters code es ss ts).map (fun e => (e.PATIENT, e.Id)) =
        es.map (fun e => (e.PATIENT, e.Id)) := by
  intro es
  induction es with
  | nil => intro ss ts _ _; rfl
  | cons e est ih =>
    intro ss ts hs ht
    cases ss with
    | nil => simp at hs
    | cons s1 sst =>
      cases ts with
      | nil => simp at ht
      | cons t1 tst =>
        have hs2 : sst.length = est.length := by simpa using hs
        have ht2 : tst.length = est.length := by simpa using ht
        simp only [assembleEncounters, List.map_cons, ih sst tst hs2 ht2]

theorem encountersClean_map_pair {es : List EncounterIn} {ec : List EncounterClean}
    (h : encountersClean es = Except.ok ec) :
    ec.map (fun e => (e.PATIENT, e.Id)) = es.map (fun e => (e.PATIENT, e.Id)) := by
  obtain ⟨ss, ts, hs, ht, hec⟩ := encountersClean_ok_elim h
  have hsl : ss.length = es.length := by
    have := toDatetimeColumn_ok_length hs; simpa using this
  have htl : ts.length = es.length := by
    have := toDatetimeColumn_ok_length ht; simpa using this
  subst hec
  exact assembleEncounters_map_pair _ es ss ts hsl htl

/-- Claim C7: the pipeline is a pure function of its inputs, and both
left merges deterministically preserve the source order of their left
table: the Encounter_ID column of the final table is exactly the source
encounter ids, in source order, each repeated a number of times fixed by
the match counts of the two joins. -/
theorem claim7_join_order (inp : Inputs) (t : List UnifiedRow)
    (h : pipeline inp = Except.ok t) :
    t.map (fun r => r.Encounter_ID) =
      inp.encounters.flatMap (fun v =>
        List.replicate
          (max 1 (patCountFor inp.patients v.PATIENT) *
            max 1 (obsCountFor inp.observations v.PATIENT)) v.Id) := by
  obtain ⟨ec, oc, he, ho, ht⟩ := pipeline_ok_elim h
  subst ht
  rw [List.map_map]
  have hproj : ((fun r : UnifiedRow => r.Encounter_ID) ∘ projectRow) =
      (fun x : (EncounterClean × Option PatientClean) × Option ObservationClean =>
        x.1.1.Id) := rfl
  rw [hproj]
  have h1 : (unifiedData (integratedEncounters ec (patientsClean inp.patients)) oc).map
      (fun x => x.1.1.Id) =
      ((unifiedData (integratedEncounters ec (patientsClean inp.patients)) oc).map
        Prod.fst).map (fun y => y.1.Id) := by
    rw [List.map_map]
    rfl
  rw [h1, unifiedData, leftJoin_map_fst, List.map_flatMap]
  have h2 : (integratedEncounters ec (patientsClean inp.patients)).flatMap
      (fun l => (List.replicate
        (max 1 (oc.countP (fun r => keyEq l.1.PATIENT r.PATIENT))) l).map
          (fun y => y.1.Id)) =
      (integratedEncounters ec (patientsClean inp.patients)).flatMap
        (fun l => List.replicate
          (max 1 (obsCountFor inp.observations l.1.PATIENT)) l.1.Id) := by
    apply flatMap_congr_left
    intro l _
    rw [List.map_replicate, obsCountFor_clean ho]
  rw [h2]
  have h3 : (integratedEncounters ec (patientsClean inp.patients)).flatMap
      (fun l => List.replicate (max 1 (obsCountFor inp.observations l.1.PATIENT)) l.1.Id) =
      ((integratedEncounters ec (patientsClean inp.patients)).map Prod.fst).flatMap
        (fun e => List.replicate (max 1 (obsCountFor inp.observations e.PATIENT)) e.Id) := by
    rw [List.flatMap_map]
  rw [h3, integratedEncounters, leftJoin_map_fst]
  have h4 : ec.flatMap (fun l =>
      List.replicate
        (max 1 ((patientsClean inp.patients).countP (fun r => keyEq l.PATIENT r.PATIENT))) l) =
      ec.flatMap (fun l =>
        List.replicate (max 1 (patCountFor inp.patients l.PATIENT)) l) := by
    apply flatMap_congr_left
    intro l _
    rw [patientsClean_countP]
  rw [h4, List.flatMap_assoc]
  have h5 : ec.flatMap (fun e =>
      (List.replicate (max 1 (patCountFor inp.patients e.PATIENT)) e).flatMap
        (fun x => List.replicate (max 1 (obsCountFor inp.observations x.PATIENT)) x.Id)) =
      ec.flatMap (fun e =>
        List.replicate
          (max 1 (patCountFor inp.patients e.PATIENT) *
            max 1 (obsCountFor inp.observations e.PATIENT)) e.Id) := by
    apply flatMap_congr_left
    intro e _
    rw [replicate_flatMap, List.flatten_replicate_replicate]
  rw [h5]
  have hpair := encountersClean_map_pair he
  have h6 : ec.flatMap (fun e =>
      List.replicate
        (max 1 (patCountFor inp.patients e.PATIENT) *
          max 1 (obsCountFor inp.observations e.PATIENT)) e.Id) =
      (ec.map (fun e => (e.PATIENT, e.Id))).flatMap (fun q =>
        List.replicate
          (max 1 (patCountFor inp.patients q.1) *
            max 1 (obsCountFor inp.observations q.1)) q.2) := by
    rw [List.flatMap_map]
  have h7 : (inp.encounters.map (fun e => (e.PATIENT, e.Id))).flatMap (fun q =>
      List.replicate
        (max 1 (patCountFor inp.patients q.1) *
          max 1 (obsCountFor inp.observations q.1)) q.2) =
      inp.encounters.flatMap (fun v =>
        List.replicate
          (max 1 (patCountFor inp.patients v.PATIENT) *
            max 1 (obsCountFor inp.observations v.PATIENT)) v.Id) := by
    rw [List.flatMap_map]
  rw [h6, hpair, h7]

/-! ### Claim theorems on cleaning, projection and sink -/

/-- Claim C3: after cleaning, every cell of the measurement VALUE column is
numeric; coerced numeric cells pass through, absent cells receive the
median of the numeric entries of the coerced column, and with zero
numeric entries the fallback is `0`, all without error. -/
theorem claim3_value_imputation (raw : List (Option String)) :
    (∀ c ∈ cleanValues raw, c.isSome = true) ∧
    (cleanValues raw).length = raw.length ∧
    (∀ (i : Nat) (q : ℚ), (toNumericCoerce (simulateFirstNone raw))[i]? = some (some q) →
      (cleanValues raw)[i]? = some (some q)) ∧
    (∀ (i : Nat), (toNumericCoerce (simulateFirstNone raw))[i]? = some none →
      (cleanValues raw)[i]? = some (some (valueFallback raw))) ∧
    ((toNumericCoerce (simulateFirstNone raw)).filterMap id = [] →
      valueFallback raw = 0) := by
  refine ⟨cleanValues_isSome, cleanValues_length raw, ?_, ?_, ?_⟩
  · intro i q hi
    have hmap : (cleanValues raw)[i]? =
        Option.map (fun c : Option ℚ => some (c.getD (valueFallback raw)))
          ((toNumericCoerce (simulateFirstNone raw))[i]?) :=
      List.getElem?_map _ _ _
    rw [hmap, hi]
    rfl
  · intro i hi
    have hmap : (cleanValues raw)[i]? =
        Option.map (fun c : Option ℚ => some (c.getD (valueFallback raw)))
          ((toNumericCoerce (simulateFirstNone raw))[i]?) :=
      List.getElem?_map _ _ _
    rw [hmap, hi]
    rfl
  · intro hempty
    rw [valueFallback, hempty]
    rfl

/-- Claim C9: the pipeline unconditionally blanks the first person gender,
so it always leaves the cleaning stage as the literal `Unknown`, and it
unconditionally blanks the first measurement VALUE, which therefore
always leaves the cleaning stage as the imputed median-or-zero
fallback, whatever the inputs held there. -/
theorem claim9_simulated_overwrites (ps : List PatientIn) (raw : List (Option String))
    (h1 : ps ≠ []) (h2 : raw ≠ []) :
    ((patientsClean ps).head?.map (fun p => p.GENDER) = some (some "Unknown")) ∧
    (cleanValues raw).head? = some (some (valueFallback raw)) := by
  constructor
  · cases ps with
    | nil => exact absurd rfl h1
    | cons p t => rfl
  · cases raw with
    | nil => exact absurd rfl h2
    | cons c t => rfl

/-- Claim C8: a database sink failure is logged, never prevents or alters
the already-completed CSV export, and the connection is closed whether
the write succeeds or fails. -/
theorem claim8_sink_recovery (rows : List UnifiedRow) (dbFails : Bool) :
    (runSink rows dbFails).csvFile = rows ∧
    (runSink rows dbFails).connClosed = true ∧
    (dbFails = true →
      (runSink rows dbFails).dbErrorLogged = true ∧
      (runSink rows dbFails).dbTable = none) ∧
    (dbFails = false → (runSink rows dbFails).dbTable = some rows) := by
  cases dbFails <;> simp [runSink, dbWrite]

/-- Claim C5: any non-key column present on both sides of a merge appears
in the result with the left suffix on the left copy and the right suffix
on the right copy; with the schemas of this pipeline the first merge has
no collision at all, and the second merge turns the collisions Id, CODE
and DESCRIPTION into the pairs with suffixes `_encounter` (visit side)
and `_observation` (measurement side). -/
theorem claim5_suffix_rule :
    (∀ (lcols rcols : List String) (key sl sr c : String),
      ¬ c = key → c ∈ lcols → c ∈ rcols →
      ((c ++ sl) ∈ mergeCols lcols rcols key sl sr ∧
       (c ++ sr) ∈ mergeCols lcols rcols key sl sr)) ∧
    integratedColumns =
      encountersColumns ++ (patientsCleanColumns.filter (fun c => c != "PATIENT")) ∧
    ("Id_encounter" ∈ unifiedColumns ∧ "Id_observation" ∈ unifiedColumns ∧
     "CODE_encounter" ∈ unifiedColumns ∧ "CODE_observation" ∈ unifiedColumns ∧
     "DESCRIPTION_encounter" ∈ unifiedColumns ∧
     "DESCRIPTION_observation" ∈ unifiedColumns ∧
     "Id" ∉ unifiedColumns ∧ "CODE" ∉ unifiedColumns ∧
     "DESCRIPTION" ∉ unifiedColumns) := by
  refine ⟨?_, by decide, by decide⟩
  intro lcols rcols key sl sr c hck hcl hcr
  constructor
  · unfold mergeCols
    apply List.mem_append_left
    refine List.mem_map.mpr ⟨c, hcl, ?_⟩
    simp [hck, hcr]
  · unfold mergeCols
    apply List.mem_append_right
    have hcf : c ∈ rcols.filter (fun c => c != key) := by
      rw [List.mem_filter]
      exact ⟨hcr, by simpa using hck⟩
    refine List.mem_map.mpr ⟨c, hcf, ?_⟩
    simp [hcl]

/-- Claim C6: the exported table holds exactly the 22 listed columns in
order with no index column, any listed column absent from the joined
table is inserted filled with the null placeholder, and the projection is
total so no error is raised. -/
theorem claim6_projection (t : List (String × List (Option String))) (n : Nat) :
    csvHeader (ensureAndSelect t n) = finalUnifiedColumns ∧
    finalUnifiedColumns.length = 22 ∧
    (∀ c, c ∈ finalUnifiedColumns → t.lookup c = none →
      (c, List.replicate n (none : Option String)) ∈ ensureAndSelect t n) := by
  refine ⟨?_, by decide, ?_⟩
  · unfold csvHeader ensureAndSelect
    rw [List.map_map]
    have hcomp : ((fun c : String × List (Option String) => c.1) ∘
        (fun c => (c, (t.lookup c).getD (List.replicate n (none : Option String))))) =
        id := rfl
    rw [hcomp, List.map_id]
  · intro c hc hl
    unfold ensureAndSelect
    refine List.mem_map.mpr ⟨c, hc, ?_⟩
    rw [hl]
    rfl

/-! ### When the pipeline succeeds -/

theorem encountersClean_ok_iff (es : List EncounterIn) :
    (∃ ec, encountersClean es = Except.ok ec) ↔
      (columnParses (es.map (fun e => e.START)) &&
        columnParses (es.map (fun e => e.STOP))) = true := by
  unfold encountersClean
  cases hs : toDatetimeColumn (es.map (fun e => e.START)) with
  | error e =>
    have hns : ¬ ∃ ds, toDatetimeColumn (es.map (fun e => e.START)) = Except.ok ds := by
      simp [hs]
    rw [toDatetimeColumn_ok_iff] at hns
    simp only [Bool.not_eq_true] at hns
    simp [Bind.bind, Except.bind, hns]
  | ok ss =>
    have hcs : columnParses (es.map (fun e => e.START)) = true :=
      (toDatetimeColumn_ok_iff _).mp ⟨ss, hs⟩
    cases ht : toDatetimeColumn (es.map (fun e => e.STOP)) with
    | error e =>
      have hnt : ¬ ∃ ds, toDatetimeColumn (es.map (fun e => e.STOP)) = Except.ok ds := by
        simp [ht]
      rw [toDatetimeColumn_ok_iff] at hnt
      simp only [Bool.not_eq_true] at hnt
      simp [Bind.bind, Except.bind, hcs, hnt]
    | ok ts =>
      have hct : columnParses (es.map (fun e => e.STOP)) = true :=
        (toDatetimeColumn_ok_iff _).mp ⟨ts, ht⟩
      simp [Bind.bind, Except.bind, pure, Except.pure, hcs, hct]

theorem observationsClean_ok_iff (os : List ObservationIn) :
    (∃ oc, observationsClean os = Except.ok oc) ↔
      columnParses (os.map (fun o => o.DATE)) = true := by
  unfold observationsClean
  cases hd : toDatetimeColumn (os.map (fun o => o.DATE)) with
  | error e =>
    have hnd : ¬ ∃ ds, toDatetimeColumn (os.map (fun o => o.DATE)) = Except.ok ds := by
      simp [hd]
    rw [toDatetimeColumn_ok_iff] at hnd
    simp only [Bool.not_eq_true] at hnd
    simp [Bind.bind, Except.bind, hnd]
  | ok ds =>
    have hcd : columnParses (os.map (fun o => o.DATE)) = true :=
      (toDatetimeColumn_ok_iff _).mp ⟨ds, hd⟩
    simp [Bind.bind, Except.bind, pure, Except.pure, hcd]

/-- Claim C2 (amended): the pipeline run succeeds exactly when every
present date cell of the visit START/STOP columns and the measurement
DATE column parses; an unparseable date cell makes the conversion raise
and aborts the whole run instead of becoming an absent date. -/
theorem claim2_raise_policy (inp : Inputs) :
    pipelineSucceeds inp = allDatesParse inp := by
  unfold pipelineSucceeds allDatesParse
  cases hp : pipeline inp with
  | ok t =>
    obtain ⟨ec, oc, he2, ho2, _⟩ := pipeline_ok_elim hp
    have h1 := (encountersClean_ok_iff inp.encounters).mp ⟨ec, he2⟩
    have h2 := (observationsClean_ok_iff inp.observations).mp ⟨oc, ho2⟩
    rw [h1, h2]
    rfl
  | error e =>
    cases had : (columnParses (inp.encounters.map (fun e => e.START)) &&
        columnParses (inp.encounters.map (fun e => e.STOP))) &&
        columnParses (inp.observations.map (fun o => o.DATE)) with
    | false => rfl
    | true =>
      exfalso
      rw [Bool.and_eq_true] at had
      obtain ⟨ec, hec⟩ := (encountersClean_ok_iff inp.encounters).mpr had.1
      obtain ⟨oc, hoc⟩ := (observationsClean_ok_iff inp.observations).mpr had.2
      have hok : pipeline inp = Except.ok
          ((unifiedData (integratedEncounters ec (patientsClean inp.patients)) oc).map
            projectRow) := by
        unfold pipeline
        rw [hec, hoc]
        rfl
      rw [hp] at hok
      cases hok

/-! ### Gender policy and the CODE column -/

/-- Claim C4 (amended): after cleaning, no patient GENDER cell is absent
and the column equals the post-simulation genders with absent cells
replaced by the literal `Unknown` and present cells passed through; in
the final output a row GENDER is absent exactly when no person row
matches the visit PATIENT. -/
theorem claim4_gender_policy (inp : Inputs) (t : List UnifiedRow)
    (h : pipeline inp = Except.ok t) :
    (∀ p ∈ patientsClean inp.patients, p.GENDER.isSome = true) ∧
    ((patientsClean inp.patients).map (fun p => p.GENDER) =
      (simulateFirstNone (inp.patients.map (fun p => p.GENDER))).map
        (fun c => some (c.getD "Unknown"))) ∧
    (∀ r ∈ t, (r.GENDER = none ↔ patCountFor inp.patients r.PATIENT = 0)) := by
  have hsome : ∀ p ∈ patientsClean inp.patients, p.GENDER.isSome = true := by
    intro p hp
    have hmem : p.GENDER ∈ (patientsClean inp.patients).map (fun p => p.GENDER) :=
      List.mem_map_of_mem _ hp
    rw [patientsClean_map_gender] at hmem
    exact cleanGender_isSome _ hmem
  refine ⟨hsome, ?_, ?_⟩
  · rw [patientsClean_map_gender]
    rfl
  · intro r hr
    obtain ⟨ec, oc, he, ho, ht⟩ := pipeline_ok_elim h
    subst ht
    obtain ⟨u, humem, hueq⟩ := List.mem_map.mp hr
    subst hueq
    have hm1 := leftJoin_mem humem
    have hm2 := leftJoin_mem hm1.1
    constructor
    · intro hg
      rcases hu2 : u.1.2 with _ | p
      · have h0 := hm2.2.2 hu2
        rw [patientsClean_countP] at h0
        exact h0
      · exfalso
        have hp := (hm2.2.1 p hu2).1
        have hps := hsome p hp
        rw [show (projectRow u).GENDER = u.1.2.bind (fun q => q.GENDER) from rfl,
          hu2] at hg
        have hg2 : p.GENDER = none := hg
        rw [hg2] at hps
        cases hps
    · intro h0
      rcases hu2 : u.1.2 with _ | p
      · rw [show (projectRow u).GENDER = u.1.2.bind (fun q => q.GENDER) from rfl, hu2]
        rfl
      · exfalso
        obtain ⟨hp, hkey⟩ := hm2.2.1 p hu2
        have hc : (patientsClean inp.patients).countP
            (fun q => keyEq (projectRow u).PATIENT q.PATIENT) = 0 := by
          rw [patientsClean_countP]
          exact h0
        rw [List.countP_eq_zero] at hc
        exact absurd hkey (by simpa using hc p hp)

/-- Claim C10: every row of the final table holds one and the same
Encounter_Code, namely the single textual rendering of the entire
original encounter CODE column produced by applying the string
conversion to the whole Series. -/
theorem claim10_code_column (inp : Inputs) (t : List UnifiedRow)
    (h : pipeline inp = Except.ok t) :
    t.map (fun r => r.Encounter_Code) =
      List.replicate t.length (some (seriesStr (inp.encounters.map (fun e => e.CODE)))) := by
  rw [List.eq_replicate_iff]
  refine ⟨by rw [List.length_map], ?_⟩
  intro b hb
  obtain ⟨r, hr, hbr⟩ := List.mem_map.mp hb
  subst hbr
  obtain ⟨ec, oc, he, ho, ht⟩ := pipeline_ok_elim h
  subst ht
  obtain ⟨u, humem, hueq⟩ := List.mem_map.mp hr
  subst hueq
  have h1 := (leftJoin_mem humem).1
  have h2 := (leftJoin_mem h1).1
  exact encountersClean_code he u.1.1 h2

/-! ### Counterexamples and witnesses on concrete runs -/

/-- Claim C1 counterexample: with a duplicated person id the final table
has 2 rows while the claimed formula gives 1, so the claimed count does
not hold for every input. -/
theorem claim1_counterexample :
    (pipeline dupPatientInput).map (fun t => t.length) = Except.ok 2 ∧
    (dupPatientInput.encounters.map
      (fun v => max 1 (obsCountFor dupPatientInput.observations v.PATIENT))).sum = 1 ∧
    ¬ ((pipeline dupPatientInput).map (fun t => t.length) =
      Except.ok ((dupPatientInput.encounters.map
        (fun v => max 1 (obsCountFor dupPatientInput.observations v.PATIENT))).sum)) := by
  refine ⟨rfl, rfl, ?_⟩
  intro h
  rw [show (pipeline dupPatientInput).map (fun t => t.length) = Except.ok 2 from rfl,
    show (dupPatientInput.encounters.map
      (fun v => max 1 (obsCountFor dupPatientInput.observations v.PATIENT))).sum = 1
      from rfl] at h
  exact absurd (Except.ok.inj h) (by decide)

/-- Claim C1 witness: the amended count theorem evaluated on a concrete
run with a unique person id, and on a run whose visit and measurement
keys are all absent, where the absent keys match each other. -/
theorem claim1_witness :
    List.Pairwise (fun p q => keyEq p.Id q.Id = false) uniquePatientInput.patients ∧
    (pipeOut uniquePatientInput).length =
      (uniquePatientInput.encounters.map
        (fun v => max 1 (obsCountFor uniquePatientInput.observations v.PATIENT))).sum ∧
    (pipeOut nullKeyInput).length = 2 ∧
    (pipeOut nullKeyInput).length =
      (nullKeyInput.encounters.map
        (fun v => max 1 (obsCountFor nullKeyInput.observations v.PATIENT))).sum :=
  ⟨by decide,
   claim1_row_count uniquePatientInput (pipeOut uniquePatientInput) (by decide) rfl,
   rfl,
   claim1_row_count nullKeyInput (pipeOut nullKeyInput) (by decide) rfl⟩

/-- Claim C2 counterexample: a run whose visit START cell is unparseable
aborts instead of continuing with an absent date. -/
theorem claim2_counterexample :
    pipelineSucceeds badDateInput = false ∧
    some "not-a-date" ∈ badDateInput.encounters.map (fun e => e.START) ∧
    parseDate "not-a-date" = none :=
  ⟨rfl, by decide, rfl⟩

/-- Claim C3 witness: the imputation theorem evaluated on a concrete
VALUE column. -/
theorem claim3_witness :
    (toNumericCoerce (simulateFirstNone valueColumnSample))[1]? = some (some 2) ∧
    (cleanValues valueColumnSample)[1]? = some (some 2) ∧
    (toNumericCoerce (simulateFirstNone valueColumnSample))[2]? = some none ∧
    (cleanValues valueColumnSample)[2]? =
      some (some (valueFallback valueColumnSample)) :=
  ⟨by decide,
   (claim3_value_imputation valueColumnSample).2.2.1 1 2 (by decide),
   by decide,
   (claim3_value_imputation valueColumnSample).2.2.2.1 2 (by decide)⟩

/-- Claim C4 counterexample: the first person supplied gender `M` yet the
final table renders it as `Unknown`, and the visit of an unknown person
leaves an absent GENDER in the final output. -/
theorem claim4_counterexample :
    (pipeline genderInput).map (fun t => t.map (fun r => r.GENDER)) =
      Except.ok [some "Unknown", none] ∧
    genderInput.patients.map (fun p => p.GENDER) = [some "M"] :=
  ⟨rfl, rfl⟩

/-- Claim C4 witness: the amended gender theorem evaluated on the same
concrete run; on a run where an absent visit key matches an absent
person id, the matched person is counted and the output GENDER stays
present, consistent with the absent-iff-unmatched part. -/
theorem claim4_witness :
    ((patientsClean genderInput.patients).map (fun p => p.GENDER) =
      (simulateFirstNone (genderInput.patients.map (fun p => p.GENDER))).map
        (fun c => some (c.getD "Unknown"))) ∧
    ((pipeline nullKeyGenderInput).map (fun t => t.map (fun r => r.GENDER)) =
      Except.ok [some "Unknown"]) ∧
    patCountFor nullKeyGenderInput.patients none = 1 :=
  ⟨(claim4_gender_policy genderInput (pipeOut genderInput) rfl).2.1, rfl, rfl⟩

/-- Claim C5 witness: the suffix rule evaluated at the concrete collision
CODE of the second merge. -/
theorem claim5_witness :
    ¬ "CODE" = "PATIENT" ∧ "CODE" ∈ integratedColumns ∧
    "CODE" ∈ observationsColumns ∧
    ("CODE" ++ "_encounter") ∈
      mergeCols integratedColumns observationsColumns "PATIENT" "_encounter" "_observation" ∧
    ("CODE" ++ "_observation") ∈
      mergeCols integratedColumns observationsColumns "PATIENT" "_encounter" "_observation" :=
  ⟨by decide, by decide, by decide,
   (claim5_suffix_rule.1 integratedColumns observationsColumns "PATIENT" "_encounter"
      "_observation" "CODE" (by decide) (by decide) (by decide)).1,
   (claim5_suffix_rule.1 integratedColumns observationsColumns "PATIENT" "_encounter"
      "_observation" "CODE" (by decide) (by decide) (by decide)).2⟩

/-- Claim C6 witness: the projection theorem evaluated on an empty joined
table, where every output column is backfilled. -/
theorem claim6_witness :
    ("GENDER" : String) ∈ finalUnifiedColumns ∧
    (([] : List (String × List (Option String))).lookup "GENDER" = none) ∧
    ("GENDER", List.replicate 3 (none : Option String)) ∈
      ensureAndSelect [] 3 :=
  ⟨by decide, rfl, (claim6_projection [] 3).2.2 "GENDER" (by decide) rfl⟩

/-- Claim C7 witness: the order theorem evaluated on a concrete run, and
on a run with absent keys, which pandas matches against each other. -/
theorem claim7_witness :
    ((pipeOut uniquePatientInput).map (fun r => r.Encounter_ID) =
      uniquePatientInput.encounters.flatMap (fun v =>
        List.replicate
          (max 1 (patCountFor uniquePatientInput.patients v.PATIENT) *
            max 1 (obsCountFor uniquePatientInput.observations v.PATIENT)) v.Id)) ∧
    ((pipeOut nullKeyInput).map (fun r => r.Encounter_ID) =
      [some "v1", some "v1"]) ∧
    ((pipeOut nullKeyInput).map (fun r => r.Encounter_ID) =
      nullKeyInput.encounters.flatMap (fun v =>
        List.replicate
          (max 1 (patCountFor nullKeyInput.patients v.PATIENT) *
            max 1 (obsCountFor nullKeyInput.observations v.PATIENT)) v.Id)) :=
  ⟨claim7_join_order uniquePatientInput (pipeOut uniquePatientInput) rfl,
   rfl,
   claim7_join_order nullKeyInput (pipeOut nullKeyInput) rfl⟩

/-- Claim C8 witness: the sink theorem evaluated at a failing database
write. -/
theorem claim8_witness :
    (runSink [] true).csvFile = [] ∧ (runSink [] true).connClosed = true ∧
    (runSink [] true).dbErrorLogged = true ∧ (runSink [] true).dbTable = none :=
  ⟨(claim8_sink_recovery [] true).1, (claim8_sink_recovery [] true).2.1,
   ((claim8_sink_recovery [] true).2.2.1 rfl).1,
   ((claim8_sink_recovery [] true).2.2.1 rfl).2⟩

/-- Claim C9 witness: the overwrite theorem evaluated on a nonempty
person table with a supplied gender and a nonempty numeric VALUE
column. -/
theorem claim9_witness :
    ([mkPatient (some "p1") (some "F")] : List PatientIn) ≠ [] ∧
    (([some "5"] : List (Option String)) ≠ []) ∧
    ((patientsClean [mkPatient (some "p1") (some "F")]).head?.map
        (fun p => p.GENDER) = some (some "Unknown")) ∧
    (cleanValues [some "5"]).head? = some (some (valueFallback [some "5"])) :=
  ⟨by decide, by decide,
   claim9_simulated_overwrites [mkPatient (some "p1") (some "F")] [some "5"]
     (by decide) (by decide)⟩

/-- Claim C10 witness: the CODE broadcast theorem evaluated on a concrete
run. -/
theorem claim10_witness :
    (pipeOut uniquePatientInput).map (fun r => r.Encounter_Code) =
      List.replicate (pipeOut uniquePatientInput).length
        (some (seriesStr (uniquePatientInput.encounters.map (fun e => e.CODE)))) :=
  claim10_code_column uniquePatientInput (pipeOut uniquePatientInput) rfl
